import Mathlib

set_option maxHeartbeats 1600000

/-!
Verification of the RollWin deployment tool (the deploy / rollback /
configuration logic of `src/App.vue`).

The embedding models the JavaScript primitives the source relies on
(`parseInt`, `String.prototype.split('.')`, template-literal rendering of
numbers including `NaN`, JS truthiness of optional strings) and then the
stateful functions `setProjectDeploying`, `validateBuildCommand`,
`saveProject`, `saveEdit`, `deployProject` and `rollbackVersion`.
External effects (the build command, the tauri `invoke` calls, dialog
confirmation, file writes, the clock) are supplied by oracle records; the
guard maps (`deployingProjects`, `deployStatusMap`) are threaded
explicitly.  Each outcome record additionally logs which steps of the
workflow actually ran.
-/

/-! ## JavaScript primitives -/

/-- ASCII decimal digit test, as used by the radix-10 branch of `parseInt`. -/
def isDecDigit (c : Char) : Bool := '0' ≤ c && c ≤ '9'

/-- The whitespace skipped by `parseInt` before parsing. -/
def isJsWhitespace (c : Char) : Bool :=
  c = ' ' || c = '\t' || c = '\n' || c = '\r' || c = '\x0b' || c = '\x0c'

/-- Hexadecimal digit test for the `0x` branch of `parseInt`. -/
def isHexDigitCh (c : Char) : Bool :=
  isDecDigit c || ('a' ≤ c && c ≤ 'f') || ('A' ≤ c && c ≤ 'F')

/-- Numeric value of a list of decimal digit characters. -/
def decDigitsVal (l : List Char) : Nat :=
  l.foldl (fun acc c => acc * 10 + (c.toNat - 48)) 0

/-- Numeric value of one hexadecimal digit character. -/
def hexDigitVal (c : Char) : Nat :=
  if isDecDigit c then c.toNat - 48
  else if 'a' ≤ c then c.toNat - 87
  else c.toNat - 55

/-- Numeric value of a list of hexadecimal digit characters. -/
def hexDigitsVal (l : List Char) : Nat :=
  l.foldl (fun acc c => acc * 16 + hexDigitVal c) 0

/-- Does the character list begin with the `0x` / `0X` hex marker of JS? -/
def hasHexMark (cs : List Char) : Bool :=
  cs.head? = some '0' && ((cs.drop 1).head? = some 'x' || (cs.drop 1).head? = some 'X')

/-- JavaScript `parseInt(s)` (radix unspecified) on a character list:
skip whitespace, consume an optional sign, use hexadecimal after a `0x`
marker and decimal otherwise, take the longest digit run, and return
`none` (NaN) when that run is empty. -/
def jsParseIntChars (cs0 : List Char) : Option Int :=
  let cs1 := cs0.dropWhile isJsWhitespace
  let neg : Bool := cs1.head? = some '-'
  let cs2 := if neg || cs1.head? = some '+' then cs1.tail else cs1
  let sign : Int := if neg then -1 else 1
  if hasHexMark cs2 then
    let ds := (cs2.drop 2).takeWhile isHexDigitCh
    if ds = [] then none else some (sign * (hexDigitsVal ds : Int))
  else
    let ds := cs2.takeWhile isDecDigit
    if ds = [] then none else some (sign * (decDigitsVal ds : Int))

/-- JavaScript `parseInt` on a string; `none` plays the role of `NaN`. -/
def jsParseInt (s : String) : Option Int := jsParseIntChars s.data

/-- Fuel-indexed little-endian-to-big-endian decimal printer. -/
def natToDigitsGo : Nat → Nat → List Char
  | 0, _ => []
  | fuel + 1, n =>
    if n < 10 then [Nat.digitChar n]
    else natToDigitsGo fuel (n / 10) ++ [Nat.digitChar (n % 10)]

/-- Decimal digit characters of a natural number (canonical, no leading zero). -/
def natToDigits (n : Nat) : List Char := natToDigitsGo (n + 1) n

/-- JavaScript rendering of a non-negative integer number. -/
def jsRenderNat (n : Nat) : String := String.mk (natToDigits n)

/-- JavaScript template-literal rendering of a `parseInt` result:
`NaN` renders as the string `"NaN"`, integers render in decimal. -/
def jsRenderNum : Option Int → String
  | none => "NaN"
  | some i => if i < 0 then "-" ++ jsRenderNat i.natAbs else jsRenderNat i.toNat

/-- JavaScript `String.prototype.split('.')` on a character list:
`"" ↦ [""]`, separators produce empty fields. -/
def splitOnDot : List Char → List (List Char)
  | [] => [[]]
  | c :: rest =>
    if c = '.' then [] :: splitOnDot rest
    else
      match splitOnDot rest with
      | [] => [[c]]
      | p :: ps => (c :: p) :: ps

/-- JavaScript `s.split('.')`. -/
def jsSplitDot (s : String) : List String := (splitOnDot s.data).map String.mk

/-- The JS idiom `parts[i] || dflt`: out-of-range indices give `undefined`
and the empty string is falsy, so both fall back to the default. -/
def partOr (parts : List String) (i : Nat) (dflt : String) : String :=
  match parts[i]? with
  | some s => if s = "" then dflt else s
  | none => dflt

/-- JS truthiness of an optional string field (`undefined` and `""` are falsy). -/
def strTruthy : Option String → Bool
  | none => false
  | some s => s ≠ ""

/-! ## Data model (`ProjectConfig`, guard state) -/

/-- The `environment: 'prod' | 'test'` union type. -/
inductive Environment
  | prod
  | test
deriving DecidableEq, Repr

/-- The nested `serverInfo` record. -/
structure ServerInfo where
  host : String
  username : String
  password : String
  remotePath : String
deriving DecidableEq, Repr

/-- The `ProjectConfig` interface of the source. -/
structure ProjectConfig where
  id : String
  name : String
  path : String
  projectPath : String
  buildCommand : Option String
  environment : Environment
  version : String
  previousVersion : Option String
  lastDeployTime : Option String
  lastRollbackTime : Option String
  serverInfo : ServerInfo
deriving DecidableEq, Repr

/-- The ephemeral `DeployStatus` record kept in `deployStatusMap`. -/
structure DeployStatus where
  isDeploying : Bool
  status : String
deriving DecidableEq, Repr

/-- The two reactive maps `deployingProjects` and `deployStatusMap`,
modelled as total lookup functions (`Map.get(k) ?? missing`). -/
structure GuardState where
  deployingProjects : String → Bool
  deployStatusMap : String → Option DeployStatus

/-- `setProjectDeploying`: writes the in-flight flag and, when clearing,
deletes the status entry. -/
def setProjectDeploying (g : GuardState) (projectId : String) (isDeploying : Bool) :
    GuardState :=
  let deploying := fun k => if k = projectId then isDeploying else g.deployingProjects k
  if isDeploying then
    { deployingProjects := deploying, deployStatusMap := g.deployStatusMap }
  else
    { deployingProjects := deploying,
      deployStatusMap := fun k => if k = projectId then none else g.deployStatusMap k }

/-- `isProjectDeploying`: `deployingProjects.get(id) || false`. -/
def isProjectDeploying (g : GuardState) (projectId : String) : Bool :=
  g.deployingProjects projectId

/-- `deployStatusMap.set(id, { isDeploying: true, status })`. -/
def setStatus (g : GuardState) (projectId : String) (status : String) : GuardState :=
  { deployingProjects := g.deployingProjects,
    deployStatusMap := fun k =>
      if k = projectId then some { isDeploying := true, status := status }
      else g.deployStatusMap k }

/-- A guard state with nothing in flight and no status entries. -/
def emptyGuard : GuardState :=
  { deployingProjects := fun _ => false, deployStatusMap := fun _ => none }

/-! ## Build-command validation and configuration saving -/

/-- A `\w` character of the source regex (ASCII word character). -/
def isWordChar (c : Char) : Bool := c.isAlpha || c.isDigit || c = '_'

/-- A character of the `[\w:\-]` class of the source regex. -/
def isScriptChar (c : Char) : Bool := isWordChar c || c = ':' || c = '-'

/-- Strip an expected leading character sequence, or fail. -/
def dropLead : List Char → List Char → Option (List Char)
  | [], cs => some cs
  | _ :: _, [] => none
  | p :: ps, c :: cs => if c = p then dropLead ps cs else none

/-- `validateBuildCommand`: empty/undefined commands are valid; otherwise the
command must match `/^npm run [\w:\-]+$/`. -/
def validateBuildCommand (command : Option String) : Bool :=
  match command with
  | none => true
  | some cmd =>
    if cmd = "" then true
    else
      match dropLead ("npm run ").data cmd.data with
      | some rest => !rest.isEmpty && rest.all isScriptChar
      | none => false

/-- Result classification for `saveProject` / `saveEdit`. -/
inductive SaveResult
  | missingFields
  | invalidBuildCommand
  | writeFailed
  | saved
  | noop
deriving DecidableEq, Repr

/-- Outcome of a configuration save: the in-memory project list, whether the
config file write went through, and how the call ended. -/
structure SaveOutcome where
  projects : List ProjectConfig
  fileWritten : Bool
  result : SaveResult
deriving DecidableEq, Repr

/-- `saveProject` (the add dialog): reject a missing name/path, reject a
truthy build command failing `validateBuildCommand`, otherwise assign the
fresh id, push onto the in-memory list and write the config file (the push
happens before the write, so a failed write keeps the mutated list). -/
def saveProject (projects : List ProjectConfig) (newP : ProjectConfig)
    (newId : String) (writeOk : Bool) : SaveOutcome :=
  if newP.name = "" ∨ newP.path = "" then
    { projects := projects, fileWritten := false, result := .missingFields }
  else if strTruthy newP.buildCommand = true ∧ validateBuildCommand newP.buildCommand = false then
    { projects := projects, fileWritten := false, result := .invalidBuildCommand }
  else
    let projects2 := projects ++ [{ newP with id := newId }]
    if writeOk then
      { projects := projects2, fileWritten := true, result := .saved }
    else
      { projects := projects2, fileWritten := false, result := .writeFailed }

/-- Replace the first element whose `id` matches (the
`findIndex` / assignment idiom of `saveEdit`); no match leaves the list as is. -/
def replaceById : List ProjectConfig → ProjectConfig → List ProjectConfig
  | [], _ => []
  | q :: rest, e => if q.id = e.id then e :: rest else q :: replaceById rest e

/-- `saveEdit` (the edit dialog): no field validation at all — the edited
record replaces the stored one and the config file is rewritten. -/
def saveEdit (projects : List ProjectConfig) (editing : Option ProjectConfig)
    (writeOk : Bool) : SaveOutcome :=
  match editing with
  | none => { projects := projects, fileWritten := false, result := .noop }
  | some e =>
    let projects2 := replaceById projects e
    if writeOk then
      { projects := projects2, fileWritten := true, result := .saved }
    else
      { projects := projects2, fileWritten := false, result := .writeFailed }

/-! ## Deploy -/

/-- The version computation of `deployProject`:
`parseInt(parts[0] || '1') . parseInt(parts[1] || '0') . (parseInt(parts[2] || '0') + 1)`
rendered through a template literal (NaN propagates and prints as `"NaN"`). -/
def bumpPatch (version : String) : String :=
  let versionParts := jsSplitDot version
  let major := jsParseInt (partOr versionParts 0 "1")
  let minor := jsParseInt (partOr versionParts 1 "0")
  let patch := (jsParseInt (partOr versionParts 2 "0")).map (· + 1)
  jsRenderNum major ++ "." ++ jsRenderNum minor ++ "." ++ jsRenderNum patch

/-- External-world oracle for one `deployProject` call: the build command's
exit code, whether the two local writes of the soft-failure block succeed,
whether the `deploy_project` invoke succeeds, and the current time. -/
structure DeployOracle where
  buildExit : Int
  versionJsonOk : Bool
  configWriteOk : Bool
  uploadOk : Bool
  now : String
deriving DecidableEq, Repr

/-- How one `deployProject` call ended. -/
inductive DeployResult
  | emptyRemotePath
  | buildFailed
  | uploadFailed
  | success
deriving DecidableEq, Repr

/-- Outcome of one `deployProject` call, with an event log of which steps ran. -/
structure DeployOutcome where
  project : ProjectConfig
  guard : GuardState
  result : DeployResult
  guardWasSet : Bool
  buildRan : Bool
  bumpApplied : Bool
  manifestWritten : Bool
  configPersisted : Bool
  uploadAttempted : Bool

/-- `deployProject`.  The early `return` on an empty `remotePath` happens
inside the `try`, so the `finally` still runs `setProjectDeploying(id, false)`
on that path; the in-flight flag is never consulted.  On any thrown error the
`catch` restores `version := previousVersion` whenever `previousVersion` is
truthy, regardless of whether this call bumped the version.
`lastDeployTime` and the config-file write happen before the upload invoke. -/
def deployProject (g0 : GuardState) (p0 : ProjectConfig) (o : DeployOracle) :
    DeployOutcome :=
  if p0.serverInfo.remotePath = "" then
    { project := p0, guard := setProjectDeploying g0 p0.id false,
      result := .emptyRemotePath, guardWasSet := false, buildRan := false,
      bumpApplied := false, manifestWritten := false, configPersisted := false,
      uploadAttempted := false }
  else
    let g1 := setStatus (setProjectDeploying g0 p0.id true) p0.id "准备发布..."
    let runBuild := strTruthy p0.buildCommand
    let g2 := if runBuild = true then setStatus g1 p0.id "正在执行打包命令..." else g1
    if runBuild = true ∧ o.buildExit ≠ 0 then
      let pFail :=
        if strTruthy p0.previousVersion = true then
          { p0 with version := p0.previousVersion.getD "" }
        else p0
      { project := pFail,
        guard := setProjectDeploying (setStatus g2 p0.id "发布失败") p0.id false,
        result := .buildFailed, guardWasSet := true, buildRan := true,
        bumpApplied := false, manifestWritten := false, configPersisted := false,
        uploadAttempted := false }
    else
      let g3 := setStatus g2 p0.id "正在准备文件..."
      let p1 := { p0 with previousVersion := some p0.version,
                          version := bumpPatch p0.version }
      let manifestWritten := o.versionJsonOk
      let configPersisted := o.versionJsonOk && o.configWriteOk
      let g4 := setStatus g3 p0.id "正在上传文件..."
      let p2 := { p1 with lastDeployTime := some o.now }
      if o.uploadOk = true then
        { project := p2,
          guard := setProjectDeploying (setStatus g4 p0.id "发布完成") p0.id false,
          result := .success, guardWasSet := true, buildRan := runBuild,
          bumpApplied := true, manifestWritten := manifestWritten,
          configPersisted := configPersisted, uploadAttempted := true }
      else
        let pFail :=
          if strTruthy p2.previousVersion = true then
            { p2 with version := p2.previousVersion.getD "" }
          else p2
        { project := pFail,
          guard := setProjectDeploying (setStatus g4 p0.id "发布失败") p0.id false,
          result := .uploadFailed, guardWasSet := true, buildRan := runBuild,
          bumpApplied := true, manifestWritten := manifestWritten,
          configPersisted := configPersisted, uploadAttempted := true }

/-! ## Rollback -/

/-- The malformedness test of `rollbackVersion` on `previousVersion`:
not exactly three `.`-separated parts, or some part parsing to NaN
(after the `parts[i] || dflt` fallback). -/
def rollbackPrevMalformed (prev : String) : Bool :=
  let parts := jsSplitDot prev
  parts.length != 3
    || (jsParseInt (partOr parts 0 "1")).isNone
    || (jsParseInt (partOr parts 1 "0")).isNone
    || (jsParseInt (partOr parts 2 "0")).isNone

/-- The restored version string of `rollbackVersion`: the numeric
re-rendering of the parsed components of `previousVersion`. -/
def rollbackRender (prev : String) : String :=
  let parts := jsSplitDot prev
  jsRenderNum (jsParseInt (partOr parts 0 "1")) ++ "."
    ++ jsRenderNum (jsParseInt (partOr parts 1 "0")) ++ "."
    ++ jsRenderNum (jsParseInt (partOr parts 2 "0"))

/-- External-world oracle for one `rollbackVersion` call. -/
structure RollbackOracle where
  confirmed : Bool
  versionJsonOk : Bool
  configWriteOk : Bool
  rollbackOk : Bool
  persistOk : Bool
  now : String
deriving DecidableEq, Repr

/-- How one `rollbackVersion` call ended. -/
inductive RollbackResult
  | notConfirmed
  | noPreviousVersion
  | malformedVersion
  | remoteFailed
  | persistFailed
  | success
deriving DecidableEq, Repr

/-- Outcome of one `rollbackVersion` call. -/
structure RollbackOutcome where
  project : ProjectConfig
  guard : GuardState
  result : RollbackResult
  guardWasSet : Bool
  remoteAttempted : Bool
  manifestWritten : Bool
  configPersisted : Bool
  finalPersisted : Bool

/-- `rollbackVersion`.  The confirmation dialog sits before the `try`, so a
declined confirmation leaves everything untouched.  Inside the `try`, a
missing `previousVersion` or a malformed one throws; the shared `catch`
then swaps `version` and `previousVersion` whenever `previousVersion` is
truthy — also on those precondition failures, where no swap had happened.
On success `lastRollbackTime` is set only after the remote invoke. -/
def rollbackVersion (g0 : GuardState) (p0 : ProjectConfig) (o : RollbackOracle) :
    RollbackOutcome :=
  if o.confirmed = false then
    { project := p0, guard := g0, result := .notConfirmed, guardWasSet := false,
      remoteAttempted := false, manifestWritten := false, configPersisted := false,
      finalPersisted := false }
  else
    let g1 := setStatus (setProjectDeploying g0 p0.id true) p0.id "准备回滚..."
    if strTruthy p0.previousVersion = false then
      { project := p0,
        guard := setProjectDeploying (setStatus g1 p0.id "回滚失败") p0.id false,
        result := .noPreviousVersion, guardWasSet := true, remoteAttempted := false,
        manifestWritten := false, configPersisted := false, finalPersisted := false }
    else
      let prev := p0.previousVersion.getD ""
      if rollbackPrevMalformed prev = true then
        let pFail := { p0 with version := prev, previousVersion := some p0.version }
        { project := pFail,
          guard := setProjectDeploying (setStatus g1 p0.id "回滚失败") p0.id false,
          result := .malformedVersion, guardWasSet := true, remoteAttempted := false,
          manifestWritten := false, configPersisted := false, finalPersisted := false }
      else
        let p1 := { p0 with version := rollbackRender prev,
                            previousVersion := some p0.version }
        let manifestWritten := o.versionJsonOk
        let configPersisted := o.versionJsonOk && o.configWriteOk
        let g2 := setStatus g1 p0.id "正在回滚文件..."
        if o.rollbackOk = false then
          let pFail :=
            if strTruthy p1.previousVersion = true then
              { p1 with version := p1.previousVersion.getD "",
                        previousVersion := some p1.version }
            else p1
          { project := pFail,
            guard := setProjectDeploying (setStatus g2 p0.id "回滚失败") p0.id false,
            result := .remoteFailed, guardWasSet := true, remoteAttempted := true,
            manifestWritten := manifestWritten, configPersisted := configPersisted,
            finalPersisted := false }
        else
          let p2 := { p1 with lastRollbackTime := some o.now }
          if o.persistOk = false then
            let pFail :=
              if strTruthy p2.previousVersion = true then
                { p2 with version := p2.previousVersion.getD "",
                          previousVersion := some p2.version }
              else p2
            { project := pFail,
              guard := setProjectDeploying (setStatus g2 p0.id "回滚失败") p0.id false,
              result := .persistFailed, guardWasSet := true, remoteAttempted := true,
              manifestWritten := manifestWritten, configPersisted := configPersisted,
              finalPersisted := false }
          else
            { project := p2,
              guard := setProjectDeploying (setStatus g2 p0.id "回滚完成") p0.id false,
              result := .success, guardWasSet := true, remoteAttempted := true,
              manifestWritten := manifestWritten, configPersisted := configPersisted,
              finalPersisted := true }

/-- The canonical dotted-triple string `a.b.c` built from naturals, as JS
renders version numbers. -/
def natTriple (a b c : Nat) : String :=
  jsRenderNat a ++ "." ++ jsRenderNat b ++ "." ++ jsRenderNat c

/-- Spec-side validity of a build command, transcribed from the spec:
"empty/absent command is valid (means skip); otherwise the command must
match a fixed pattern equivalent to `npm run <identifier>` where
`<identifier>` is composed of word characters, colons, and hyphens only". -/
def specBuildCommandOk (cmd : String) : Prop :=
  cmd = "" ∨ ∃ ident : List Char, ident ≠ [] ∧ (∀ ch ∈ ident, isScriptChar ch = true) ∧
    cmd.data = ("npm run ").data ++ ident

/-! ## Concrete fixtures (used by witnesses and counterexamples) -/

/-- A deployment target with a non-empty remote path. -/
def demoServer : ServerInfo :=
  { host := "192.168.1.10", username := "root", password := "pw",
    remotePath := "/var/www/app" }

/-- A well-formed project at version `1.0.0` with a build command. -/
def demoProject : ProjectConfig :=
  { id := "1700000000000", name := "app", path := "/home/op/dist",
    projectPath := "/home/op/src", buildCommand := some "npm run build",
    environment := .prod, version := "1.0.0", previousVersion := none,
    lastDeployTime := none, lastRollbackTime := none, serverInfo := demoServer }

/-- An oracle under which every external step of a deploy succeeds. -/
def demoDeployOracle : DeployOracle :=
  { buildExit := 0, versionJsonOk := true, configWriteOk := true, uploadOk := true,
    now := "2026-10-11T00:00:00.000Z" }

/-- An oracle under which every external step of a rollback succeeds. -/
def demoRollbackOracle : RollbackOracle :=
  { confirmed := true, versionJsonOk := true, configWriteOk := true,
    rollbackOk := true, persistOk := true, now := "2026-10-11T01:00:00.000Z" }

/-- A guard state in which `demoProject` is already in flight. -/
def busyGuard : GuardState :=
  { deployingProjects := fun k => if k = "1700000000000" then true else false,
    deployStatusMap := fun _ => none }

/-- `demoProject` with an empty remote path. -/
def demoEmptyRemote : ProjectConfig :=
  { demoProject with serverInfo := { demoServer with remotePath := "" } }

/-- A project that already carries a `previousVersion` from an earlier deploy. -/
def c2Project : ProjectConfig :=
  { demoProject with version := "1.0.1", previousVersion := some "1.0.0" }

/-- A deploy oracle whose build command exits with code 1. -/
def c2Oracle : DeployOracle := { demoDeployOracle with buildExit := 1 }

/-- A project whose `previousVersion` has only two components. -/
def c3Project : ProjectConfig :=
  { demoProject with version := "2.0.0", previousVersion := some "1.0" }

/-- A project with no `previousVersion`. -/
def c3NoPrev : ProjectConfig := { demoProject with previousVersion := none }

/-- A deploy oracle whose upload invoke fails. -/
def c7Oracle : DeployOracle := { demoDeployOracle with uploadOk := false }

/-- A project whose `previousVersion` has a leading zero. -/
def c6Project : ProjectConfig :=
  { demoProject with version := "2.0.0", previousVersion := some "01.0.0" }

/-- A project with canonical version and previous version triples. -/
def demoRollCanonical : ProjectConfig :=
  { demoProject with version := natTriple 1 0 1, previousVersion := some (natTriple 1 0 0) }

/-- A project whose stored `previousVersion` has trailing junk and a leading zero. -/
def c10Project : ProjectConfig :=
  { demoProject with version := "1.0.0", previousVersion := some "1x.02.3" }

/-- An edited copy of `demoProject` with a malformed build command. -/
def c8Bad : ProjectConfig := { demoProject with buildCommand := some "rm -rf /" }

/-! ## Lemmas about the JavaScript primitives -/

theorem takeWhile_all_eq {p : Char → Bool} :
    ∀ l : List Char, (∀ c ∈ l, p c = true) → l.takeWhile p = l
  | [], _ => rfl
  | c :: cs, h => by
    have hc : p c = true := h c (List.mem_cons_self c cs)
    simp only [List.takeWhile_cons, hc]
    exact congrArg (c :: ·) (takeWhile_all_eq cs fun d hd => h d (List.mem_cons_of_mem c hd))

theorem isDecDigit_ne {c : Char} (h : isDecDigit c = true) :
    isJsWhitespace c = false ∧ c ≠ '-' ∧ c ≠ '+' ∧ c ≠ 'x' ∧ c ≠ 'X' ∧ c ≠ '.' := by
  refine ⟨?_, ?_, ?_, ?_, ?_, ?_⟩
  · by_contra hw
    rw [Bool.not_eq_false] at hw
    simp only [isJsWhitespace, Bool.or_eq_true, decide_eq_true_eq] at hw
    rcases hw with ((((rfl | rfl) | rfl) | rfl) | rfl) | rfl <;> exact absurd h (by decide)
  all_goals intro hc; rw [hc] at h; exact absurd h (by decide)

theorem decDigitsVal_append_singleton (l : List Char) (c : Char) :
    decDigitsVal (l ++ [c]) = decDigitsVal l * 10 + (c.toNat - 48) := by
  simp [decDigitsVal, List.foldl_append]

theorem digitChar_spec {m : Nat} (hm : m < 10) :
    isDecDigit (Nat.digitChar m) = true ∧ (Nat.digitChar m).toNat - 48 = m := by
  interval_cases m <;> exact ⟨by decide, by decide⟩

theorem natToDigitsGo_spec :
    ∀ fuel n, n < fuel →
      natToDigitsGo fuel n ≠ [] ∧
      (∀ c ∈ natToDigitsGo fuel n, isDecDigit c = true) ∧
      decDigitsVal (natToDigitsGo fuel n) = n := by
  intro fuel
  induction fuel with
  | zero => intro n h; exact absurd h (Nat.not_lt_zero n)
  | succ fuel ih =>
    intro n hn
    by_cases h10 : n < 10
    · simp only [natToDigitsGo, if_pos h10]
      refine ⟨by simp, ?_, ?_⟩
      · intro c hc
        simp only [List.mem_singleton] at hc
        subst hc
        exact (digitChar_spec h10).1
      · show decDigitsVal [Nat.digitChar n] = n
        have := (digitChar_spec h10).2
        simp [decDigitsVal]
        omega
    · simp only [natToDigitsGo, if_neg h10]
      have hpos : 0 < n := by omega
      have hdiv : n / 10 < n := Nat.div_lt_self hpos (by omega)
      have hfuel : n / 10 < fuel := by omega
      obtain ⟨hne, hdig, hval⟩ := ih (n / 10) hfuel
      have hmod : n % 10 < 10 := Nat.mod_lt _ (by omega)
      refine ⟨by simp, ?_, ?_⟩
      · intro c hc
        rcases List.mem_append.mp hc with h | h
        · exact hdig c h
        · simp only [List.mem_singleton] at h
          subst h
          exact (digitChar_spec hmod).1
      · rw [decDigitsVal_append_singleton, hval, (digitChar_spec hmod).2]
        omega

theorem natToDigits_ne_nil (n : Nat) : natToDigits n ≠ [] :=
  (natToDigitsGo_spec (n + 1) n (Nat.lt_succ_self n)).1

theorem natToDigits_digits (n : Nat) : ∀ c ∈ natToDigits n, isDecDigit c = true :=
  (natToDigitsGo_spec (n + 1) n (Nat.lt_succ_self n)).2.1

theorem decDigitsVal_natToDigits (n : Nat) : decDigitsVal (natToDigits n) = n :=
  (natToDigitsGo_spec (n + 1) n (Nat.lt_succ_self n)).2.2

theorem jsParseIntChars_digits :
    ∀ l : List Char, l ≠ [] → (∀ c ∈ l, isDecDigit c = true) →
      jsParseIntChars l = some (decDigitsVal l : Int) := by
  intro l hne hdig
  match l, hne with
  | c :: cs, _ =>
    have hc := hdig c (List.mem_cons_self c cs)
    obtain ⟨hw, hminus, hplus, _, _, _⟩ := isDecDigit_ne hc
    have hhex : hasHexMark (c :: cs) = false := by
      cases cs with
      | nil => simp [hasHexMark]
      | cons d ds =>
        have hd := hdig d (List.mem_cons_of_mem c (List.mem_cons_self d ds))
        obtain ⟨_, _, _, hdx, hdX, _⟩ := isDecDigit_ne hd
        simp [hasHexMark, hdx, hdX]
    have htake : (c :: cs).takeWhile isDecDigit = c :: cs := takeWhile_all_eq _ hdig
    have hdrop : (c :: cs).dropWhile isJsWhitespace = c :: cs := by
      simp [List.dropWhile_cons, hw]
    have hnegf : (decide ((c :: cs).head? = some '-')) = false :=
      decide_eq_false (by simp [hminus])
    have hplusf : (decide ((c :: cs).head? = some '+')) = false :=
      decide_eq_false (by simp [hplus])
    simp only [jsParseIntChars, hdrop, hnegf, hplusf, Bool.false_or, Bool.false_eq_true,
      if_false, hhex, htake]
    rw [if_neg (by exact fun hx => List.cons_ne_nil c cs hx)]
    simp

theorem jsParseInt_mk_digits (l : List Char) (hne : l ≠ [])
    (hdig : ∀ c ∈ l, isDecDigit c = true) :
    jsParseInt (String.mk l) = some (decDigitsVal l : Int) :=
  jsParseIntChars_digits l hne hdig

theorem jsParseInt_jsRenderNat (n : Nat) : jsParseInt (jsRenderNat n) = some (n : Int) := by
  have h := jsParseIntChars_digits (natToDigits n) (natToDigits_ne_nil n) (natToDigits_digits n)
  rw [decDigitsVal_natToDigits] at h
  exact h

theorem jsRenderNum_coe (n : Nat) : jsRenderNum (some (n : Int)) = jsRenderNat n := by
  have h1 : ¬((n : Int) < 0) := by exact_mod_cast Int.not_lt.mpr (Int.natCast_nonneg n)
  simp [jsRenderNum, h1]

theorem jsRenderNat_ne_empty (n : Nat) : jsRenderNat n ≠ "" := by
  intro h
  exact natToDigits_ne_nil n (congrArg String.data h)

theorem splitOnDot_no_dot :
    ∀ l : List Char, (∀ c ∈ l, c ≠ '.') → splitOnDot l = [l]
  | [], _ => rfl
  | c :: rest, h => by
    have hc : c ≠ '.' := h c (List.mem_cons_self c rest)
    have ih := splitOnDot_no_dot rest fun d hd => h d (List.mem_cons_of_mem c hd)
    simp [splitOnDot, hc, ih]

theorem splitOnDot_append_dot :
    ∀ xs ys : List Char, (∀ c ∈ xs, c ≠ '.') →
      splitOnDot (xs ++ '.' :: ys) = xs :: splitOnDot ys
  | [], ys, _ => by simp [splitOnDot]
  | x :: xs, ys, h => by
    have hx : x ≠ '.' := h x (List.mem_cons_self x xs)
    have ih := splitOnDot_append_dot xs ys fun d hd => h d (List.mem_cons_of_mem x hd)
    simp [splitOnDot, hx, ih]

theorem data_append (a b : String) : (a ++ b).data = a.data ++ b.data := rfl

theorem natToDigits_no_dot (n : Nat) : ∀ c ∈ natToDigits n, c ≠ '.' :=
  fun c hc => (isDecDigit_ne (natToDigits_digits n c hc)).2.2.2.2.2

theorem natTriple_data (a b c : Nat) :
    (natTriple a b c).data = natToDigits a ++ '.' :: (natToDigits b ++ '.' :: natToDigits c) := by
  simp [natTriple, data_append, jsRenderNat]

theorem jsSplitDot_natTriple (a b c : Nat) :
    jsSplitDot (natTriple a b c) = [jsRenderNat a, jsRenderNat b, jsRenderNat c] := by
  unfold jsSplitDot
  rw [natTriple_data, splitOnDot_append_dot _ _ (natToDigits_no_dot a),
    splitOnDot_append_dot _ _ (natToDigits_no_dot b),
    splitOnDot_no_dot _ (natToDigits_no_dot c)]
  rfl

theorem natTriple_ne_empty (a b c : Nat) : natTriple a b c ≠ "" := by
  intro h
  have h2 := congrArg String.data h
  rw [natTriple_data] at h2
  simp at h2

theorem partOr_triple (x y z : String) (hx : x ≠ "") (hy : y ≠ "") (hz : z ≠ "")
    (d0 d1 d2 : String) :
    partOr [x, y, z] 0 d0 = x ∧ partOr [x, y, z] 1 d1 = y ∧ partOr [x, y, z] 2 d2 = z := by
  refine ⟨?_, ?_, ?_⟩ <;> simp [partOr, hx, hy, hz]

theorem bumpPatch_natTriple (a b c : Nat) :
    bumpPatch (natTriple a b c) = natTriple a b (c + 1) := by
  simp only [bumpPatch]
  rw [jsSplitDot_natTriple]
  obtain ⟨h0, h1, h2⟩ := partOr_triple (jsRenderNat a) (jsRenderNat b) (jsRenderNat c)
    (jsRenderNat_ne_empty a) (jsRenderNat_ne_empty b) (jsRenderNat_ne_empty c) "1" "0" "0"
  rw [h0, h1, h2, jsParseInt_jsRenderNat, jsParseInt_jsRenderNat, jsParseInt_jsRenderNat]
  have hcast : ((c : Int) + 1) = ((c + 1 : Nat) : Int) := by push_cast; ring
  simp only [Option.map_some', hcast]
  rw [jsRenderNum_coe, jsRenderNum_coe, jsRenderNum_coe]
  rfl

theorem rollbackPrevMalformed_natTriple (a b c : Nat) :
    rollbackPrevMalformed (natTriple a b c) = false := by
  simp only [rollbackPrevMalformed]
  rw [jsSplitDot_natTriple]
  obtain ⟨h0, h1, h2⟩ := partOr_triple (jsRenderNat a) (jsRenderNat b) (jsRenderNat c)
    (jsRenderNat_ne_empty a) (jsRenderNat_ne_empty b) (jsRenderNat_ne_empty c) "1" "0" "0"
  rw [h0, h1, h2, jsParseInt_jsRenderNat, jsParseInt_jsRenderNat, jsParseInt_jsRenderNat]
  rfl

theorem rollbackRender_natTriple (a b c : Nat) :
    rollbackRender (natTriple a b c) = natTriple a b c := by
  simp only [rollbackRender]
  rw [jsSplitDot_natTriple]
  obtain ⟨h0, h1, h2⟩ := partOr_triple (jsRenderNat a) (jsRenderNat b) (jsRenderNat c)
    (jsRenderNat_ne_empty a) (jsRenderNat_ne_empty b) (jsRenderNat_ne_empty c) "1" "0" "0"
  rw [h0, h1, h2, jsParseInt_jsRenderNat, jsParseInt_jsRenderNat, jsParseInt_jsRenderNat,
    jsRenderNum_coe, jsRenderNum_coe, jsRenderNum_coe]
  rfl

/-! ## Helper lemmas about the operations -/

theorem dropLead_eq_some :
    ∀ (ps cs rest : List Char), dropLead ps cs = some rest ↔ cs = ps ++ rest
  | [], cs, rest => by
    simp [dropLead, eq_comm]
  | p :: ps, [], rest => by
    simp [dropLead]
  | p :: ps, c :: cs, rest => by
    by_cases hc : c = p
    · subst hc
      simp [dropLead, dropLead_eq_some ps cs rest]
    · simp [dropLead, hc]

/-- Shape of a successful rollback: `version` becomes the numeric
re-rendering of `previousVersion`, the old `version` moves into
`previousVersion`, and `lastRollbackTime` is stamped. -/
theorem rollbackVersion_success_shape (g : GuardState) (p : ProjectConfig)
    (o : RollbackOracle) (s : String)
    (hc : o.confirmed = true) (hr : o.rollbackOk = true) (hs : o.persistOk = true)
    (hp : p.previousVersion = some s) (hsne : s ≠ "")
    (hmal : rollbackPrevMalformed s = false) :
    (rollbackVersion g p o).result = .success ∧
    (rollbackVersion g p o).project =
      { p with version := rollbackRender s,
               previousVersion := some p.version,
               lastRollbackTime := some o.now } := by
  have hss : strTruthy (some s) = true := by simp [strTruthy, hsne]
  simp [rollbackVersion, hc, hp, hss, hmal, hr, hs]

/-- A successful rollback on a canonical dotted triple restores that very
string (parse–re-render is the identity on canonical triples). -/
theorem rollbackVersion_natTriple (g : GuardState) (p : ProjectConfig)
    (o : RollbackOracle) (d e f : Nat)
    (hc : o.confirmed = true) (hr : o.rollbackOk = true) (hs : o.persistOk = true)
    (hp : p.previousVersion = some (natTriple d e f)) :
    (rollbackVersion g p o).result = .success ∧
    (rollbackVersion g p o).project =
      { p with version := natTriple d e f,
               previousVersion := some p.version,
               lastRollbackTime := some o.now } := by
  obtain ⟨h1, h2⟩ := rollbackVersion_success_shape g p o (natTriple d e f) hc hr hs hp
    (natTriple_ne_empty d e f) (rollbackPrevMalformed_natTriple d e f)
  rw [rollbackRender_natTriple] at h2
  exact ⟨h1, h2⟩

/-! ## Claims -/

/-- C9: a deploy on a project with an empty `serverInfo.remotePath` is
rejected with `emptyRemotePath` before any other step: the project is
untouched, no build/bump/upload/persist step runs, the in-flight flag is
never set to true (and reads false afterwards), and guard entries of other
project ids are untouched. -/
theorem claim9_empty_remote_path_rejected (g : GuardState) (p : ProjectConfig)
    (o : DeployOracle) (h : p.serverInfo.remotePath = "") :
    (deployProject g p o).result = .emptyRemotePath ∧
    (deployProject g p o).project = p ∧
    (deployProject g p o).guardWasSet = false ∧
    (deployProject g p o).buildRan = false ∧
    (deployProject g p o).bumpApplied = false ∧
    (deployProject g p o).uploadAttempted = false ∧
    (deployProject g p o).configPersisted = false ∧
    isProjectDeploying (deployProject g p o).guard p.id = false ∧
    (∀ k, k ≠ p.id →
      (deployProject g p o).guard.deployingProjects k = g.deployingProjects k ∧
      (deployProject g p o).guard.deployStatusMap k = g.deployStatusMap k) := by
  simp only [deployProject, if_pos h]
  refine ⟨trivial, trivial, trivial, trivial, trivial, trivial, trivial, ?_, ?_⟩
  · simp [isProjectDeploying, setProjectDeploying]
  · intro k hk
    simp [setProjectDeploying, hk]

/-- Witness for C9 at a concrete project with an empty remote path. -/
theorem claim9_witness :
    (deployProject emptyGuard demoEmptyRemote demoDeployOracle).result =
      DeployResult.emptyRemotePath ∧
    (deployProject emptyGuard demoEmptyRemote demoDeployOracle).project = demoEmptyRemote ∧
    (deployProject emptyGuard demoEmptyRemote demoDeployOracle).guardWasSet = false ∧
    isProjectDeploying (deployProject emptyGuard demoEmptyRemote demoDeployOracle).guard
      demoEmptyRemote.id = false := by
  obtain ⟨h1, h2, h3, _, _, _, _, h8, _⟩ :=
    claim9_empty_remote_path_rejected emptyGuard demoEmptyRemote demoDeployOracle rfl
  exact ⟨h1, h2, h3, h8⟩

/-- C4: when the upload fails after the bump was applied (non-empty remote
path, build skipped or successful), the failure handler restores `version`
to its pre-call value, which is exactly the value this deploy recorded into
`previousVersion`.  The pre-call `version` being non-empty is implied by the
claim's premise that it is a dotted triple. -/
theorem claim4_upload_failure_restores_version (g : GuardState) (p : ProjectConfig)
    (o : DeployOracle) (hrp : p.serverInfo.remotePath ≠ "")
    (hb : strTruthy p.buildCommand = true → o.buildExit = 0)
    (hu : o.uploadOk = false) (hv : p.version ≠ "") :
    (deployProject g p o).result = .uploadFailed ∧
    (deployProject g p o).project.version = p.version ∧
    (deployProject g p o).project.previousVersion = some p.version := by
  have hbuild : ¬(strTruthy p.buildCommand = true ∧ o.buildExit ≠ 0) := by
    rintro ⟨h1, h2⟩; exact h2 (hb h1)
  have hsv : strTruthy (some p.version) = true := by simp [strTruthy, hv]
  simp [deployProject, hrp, hbuild, hu, hsv]

/-- Witness for C4: build succeeds, upload fails, version `1.0.0` survives. -/
theorem claim4_witness :
    (deployProject emptyGuard demoProject c7Oracle).result = DeployResult.uploadFailed ∧
    (deployProject emptyGuard demoProject c7Oracle).project.version = "1.0.0" ∧
    (deployProject emptyGuard demoProject c7Oracle).project.previousVersion =
      some "1.0.0" := by
  exact claim4_upload_failure_restores_version emptyGuard demoProject c7Oracle
    (by decide) (fun _ => rfl) rfl (by decide)

/-- C2 counterexample: a failed build on a project that carries a
`previousVersion` from an earlier deploy.  The claim says `version` is left
exactly as it was, but the shared failure handler rewrites it to the stale
`previousVersion`: `1.0.1` becomes `1.0.0`. -/
theorem claim2_counterexample :
    c2Project.version = "1.0.1" ∧
    (deployProject emptyGuard c2Project c2Oracle).result = DeployResult.buildFailed ∧
    (deployProject emptyGuard c2Project c2Oracle).uploadAttempted = false ∧
    (deployProject emptyGuard c2Project c2Oracle).project.version = "1.0.0" ∧
    (deployProject emptyGuard c2Project c2Oracle).project.version ≠ c2Project.version := by
  decide

/-- C2 as amended: a failed build aborts before the bump and before any
upload, and leaves `previousVersion` unchanged; `version` is unchanged only
when `previousVersion` was absent or empty before the call — otherwise the
failure handler overwrites `version` with that pre-existing
`previousVersion`. -/
theorem claim2_amended (g : GuardState) (p : ProjectConfig) (o : DeployOracle)
    (hrp : p.serverInfo.remotePath ≠ "")
    (hb : strTruthy p.buildCommand = true) (he : o.buildExit ≠ 0) :
    (deployProject g p o).result = .buildFailed ∧
    (deployProject g p o).buildRan = true ∧
    (deployProject g p o).bumpApplied = false ∧
    (deployProject g p o).uploadAttempted = false ∧
    (deployProject g p o).configPersisted = false ∧
    (deployProject g p o).project.previousVersion = p.previousVersion ∧
    (deployProject g p o).project.version =
      (if strTruthy p.previousVersion = true then p.previousVersion.getD ""
       else p.version) := by
  by_cases hpv : strTruthy p.previousVersion = true <;>
    simp [deployProject, hrp, hb, he, hpv]

/-- Witness for C2 as amended, at the concrete counterexample project. -/
theorem claim2_witness :
    (deployProject emptyGuard c2Project c2Oracle).result = DeployResult.buildFailed ∧
    (deployProject emptyGuard c2Project c2Oracle).uploadAttempted = false ∧
    (deployProject emptyGuard c2Project c2Oracle).project.previousVersion =
      c2Project.previousVersion ∧
    (deployProject emptyGuard c2Project c2Oracle).project.version =
      (if strTruthy c2Project.previousVersion = true then
        c2Project.previousVersion.getD "" else c2Project.version) := by
  obtain ⟨h1, _, _, h4, _, h6, h7⟩ :=
    claim2_amended emptyGuard c2Project c2Oracle (by decide) (by decide) (by decide)
  exact ⟨h1, h4, h6, h7⟩

/-- C5 counterexample: the claim says an unparsable component defaults to
its baseline (major to 1), which for `"x.0.0"` would give `"1.0.1"` — but
`parseInt('x')` is NaN and the template literal renders it as `"NaN"`. -/
theorem claim5_counterexample :
    bumpPatch "x.0.0" = "NaN.0.1" ∧ bumpPatch "x.0.0" ≠ "1.0.1" := by
  decide

/-- C5 as amended: `BumpPatch` defaults a missing or empty component to its
baseline (major 1, minor 0, patch 0) and bumps the patch; a non-empty
component with no parsable leading integer yields NaN, rendered `"NaN"`.
On canonical triples the bump is `a.b.c ↦ a.b.(c+1)`, and a successful
deploy of a project at `1.0.0` ends at version `1.0.1` with
`previousVersion 1.0.0`. -/
theorem claim5_amended :
    (∀ a b c : Nat, bumpPatch (natTriple a b c) = natTriple a b (c + 1)) ∧
    bumpPatch "" = "1.0.1" ∧
    bumpPatch "7" = "7.0.1" ∧
    bumpPatch "x.0.0" = "NaN.0.1" ∧
    (∀ g p o, p.serverInfo.remotePath ≠ "" →
      (strTruthy p.buildCommand = true → o.buildExit = 0) →
      o.uploadOk = true → p.version = "1.0.0" →
      (deployProject g p o).result = .success ∧
      (deployProject g p o).project.version = "1.0.1" ∧
      (deployProject g p o).project.previousVersion = some "1.0.0") := by
  refine ⟨bumpPatch_natTriple, by decide, by decide, by decide, ?_⟩
  intro g p o hrp hb hu hv
  have hbuild : ¬(strTruthy p.buildCommand = true ∧ o.buildExit ≠ 0) := by
    rintro ⟨h1, h2⟩; exact h2 (hb h1)
  simp [deployProject, hrp, hbuild, hu, hv]
  decide

/-- Witness for C5 as amended: the canonical law at `1.0.0` and the deploy
scenario at the concrete demo project. -/
theorem claim5_witness :
    bumpPatch (natTriple 1 0 0) = natTriple 1 0 1 ∧
    (deployProject emptyGuard demoProject demoDeployOracle).result =
      DeployResult.success ∧
    (deployProject emptyGuard demoProject demoDeployOracle).project.version = "1.0.1" ∧
    (deployProject emptyGuard demoProject demoDeployOracle).project.previousVersion =
      some "1.0.0" := by
  refine ⟨claim5_amended.1 1 0 0, ?_⟩
  exact claim5_amended.2.2.2.2 emptyGuard demoProject demoDeployOracle
    (by decide) (fun _ => rfl) rfl rfl

/-- C1 counterexample: with the demo project already marked in flight,
a second `deployProject` call is not rejected — it runs the build, the
bump and the upload and completes successfully, contradicting the claimed
`AlreadyDeploying` rejection inside the operation. -/
theorem claim1_counterexample :
    isProjectDeploying busyGuard demoProject.id = true ∧
    (deployProject busyGuard demoProject demoDeployOracle).result =
      DeployResult.success ∧
    (deployProject busyGuard demoProject demoDeployOracle).buildRan = true ∧
    (deployProject busyGuard demoProject demoDeployOracle).bumpApplied = true ∧
    (deployProject busyGuard demoProject demoDeployOracle).uploadAttempted = true := by
  decide

/-- C1 as amended: neither `deployProject` nor `rollbackVersion` consults
the in-flight flag — their result, final project and executed steps are
identical whatever the incoming guard state (mutual exclusion exists only
in the UI, which disables the buttons).  What does hold is the lifecycle
half of the claim: the flag is set at operation start exactly on the paths
that enter the `try` body (every deploy; every confirmed rollback) and the
`finally` clears the flag and drops the status entry on every exit path,
while a declined rollback confirmation leaves the guard untouched. -/
theorem claim1_amended :
    (∀ g g' p o,
      (deployProject g p o).result = (deployProject g' p o).result ∧
      (deployProject g p o).project = (deployProject g' p o).project ∧
      (deployProject g p o).buildRan = (deployProject g' p o).buildRan ∧
      (deployProject g p o).uploadAttempted = (deployProject g' p o).uploadAttempted) ∧
    (∀ g g' p o,
      (rollbackVersion g p o).result = (rollbackVersion g' p o).result ∧
      (rollbackVersion g p o).project = (rollbackVersion g' p o).project ∧
      (rollbackVersion g p o).remoteAttempted = (rollbackVersion g' p o).remoteAttempted) ∧
    (∀ g p o, isProjectDeploying (deployProject g p o).guard p.id = false ∧
      (deployProject g p o).guard.deployStatusMap p.id = none ∧
      ((deployProject g p o).guardWasSet = true ↔ p.serverInfo.remotePath ≠ "")) ∧
    (∀ g p o, o.confirmed = true →
      isProjectDeploying (rollbackVersion g p o).guard p.id = false ∧
      (rollbackVersion g p o).guard.deployStatusMap p.id = none ∧
      (rollbackVersion g p o).guardWasSet = true) ∧
    (∀ g p o, o.confirmed = false →
      (rollbackVersion g p o).guard = g ∧ (rollbackVersion g p o).guardWasSet = false) := by
  refine ⟨?_, ?_, ?_, ?_, ?_⟩
  · intro g g' p o
    by_cases h1 : p.serverInfo.remotePath = "" <;>
      by_cases h2 : strTruthy p.buildCommand = true ∧ o.buildExit ≠ 0 <;>
        by_cases h3 : o.uploadOk = true <;>
          simp [deployProject, h1, h2, h3]
  · intro g g' p o
    by_cases h1 : o.confirmed = false <;>
      by_cases h2 : strTruthy p.previousVersion = false <;>
        by_cases h3 : rollbackPrevMalformed (p.previousVersion.getD "") = true <;>
          by_cases h4 : o.rollbackOk = false <;>
            by_cases h5 : o.persistOk = false <;>
              simp [rollbackVersion, h1, h2, h3, h4, h5]
  · intro g p o
    by_cases h1 : p.serverInfo.remotePath = "" <;>
      by_cases h2 : strTruthy p.buildCommand = true ∧ o.buildExit ≠ 0 <;>
        by_cases h3 : o.uploadOk = true <;>
          simp [deployProject, h1, h2, h3, isProjectDeploying, setProjectDeploying,
            setStatus]
  · intro g p o h1
    by_cases h2 : strTruthy p.previousVersion = false <;>
      by_cases h3 : rollbackPrevMalformed (p.previousVersion.getD "") = true <;>
        by_cases h4 : o.rollbackOk = false <;>
          by_cases h5 : o.persistOk = false <;>
            simp [rollbackVersion, h1, h2, h3, h4, h5, isProjectDeploying,
              setProjectDeploying, setStatus]
  · intro g p o h1
    simp [rollbackVersion, h1]

/-- Witness for C1 as amended: lifecycle facts at concrete inputs. -/
theorem claim1_witness :
    isProjectDeploying (deployProject busyGuard demoProject demoDeployOracle).guard
      demoProject.id = false ∧
    ((deployProject busyGuard demoProject demoDeployOracle).guardWasSet = true ↔
      demoProject.serverInfo.remotePath ≠ "") ∧
    (rollbackVersion emptyGuard demoRollCanonical
      { demoRollbackOracle with confirmed := false }).guard = emptyGuard := by
  refine ⟨?_, ?_, ?_⟩
  · exact (claim1_amended.2.2.1 busyGuard demoProject demoDeployOracle).1
  · exact (claim1_amended.2.2.1 busyGuard demoProject demoDeployOracle).2.2
  · exact (claim1_amended.2.2.2.2 emptyGuard demoRollCanonical
      { demoRollbackOracle with confirmed := false } rfl).1

/-- C3 counterexample: a rollback whose `previousVersion` is the malformed
`"1.0"` fails with `malformedVersion`, but — contradicting the "no state
mutated" half of the claim — the failure handler swaps the fields:
`version` becomes `"1.0"` and `previousVersion` becomes the old version. -/
theorem claim3_counterexample :
    rollbackPrevMalformed "1.0" = true ∧
    (rollbackVersion emptyGuard c3Project demoRollbackOracle).result =
      RollbackResult.malformedVersion ∧
    (rollbackVersion emptyGuard c3Project demoRollbackOracle).project.version = "1.0" ∧
    (rollbackVersion emptyGuard c3Project demoRollbackOracle).project.previousVersion =
      some "2.0.0" ∧
    (rollbackVersion emptyGuard c3Project demoRollbackOracle).project ≠ c3Project := by
  decide

/-- C3 as amended: a rollback with `previousVersion` absent (or empty,
hence falsy) fails with `noPreviousVersion` and mutates nothing; a rollback
with a malformed `previousVersion` fails with `malformedVersion` before any
remote call, but the shared failure handler then swaps `version` and
`previousVersion` — so state *is* mutated on that path (timestamps stay). -/
theorem claim3_amended :
    (∀ g p o, o.confirmed = true → strTruthy p.previousVersion = false →
      (rollbackVersion g p o).result = .noPreviousVersion ∧
      (rollbackVersion g p o).project = p ∧
      (rollbackVersion g p o).remoteAttempted = false) ∧
    (∀ g p o s, o.confirmed = true → p.previousVersion = some s → s ≠ "" →
      rollbackPrevMalformed s = true →
      (rollbackVersion g p o).result = .malformedVersion ∧
      (rollbackVersion g p o).project.version = s ∧
      (rollbackVersion g p o).project.previousVersion = some p.version ∧
      (rollbackVersion g p o).project.lastDeployTime = p.lastDeployTime ∧
      (rollbackVersion g p o).project.lastRollbackTime = p.lastRollbackTime ∧
      (rollbackVersion g p o).remoteAttempted = false) := by
  constructor
  · intro g p o hc hprev
    simp [rollbackVersion, hc, hprev]
  · intro g p o s hc hp hsne hmal
    have hss : strTruthy (some s) = true := by simp [strTruthy, hsne]
    simp [rollbackVersion, hc, hp, hss, hmal]

/-- Witness for C3 as amended: both failure modes at concrete projects. -/
theorem claim3_witness :
    ((rollbackVersion emptyGuard c3NoPrev demoRollbackOracle).result =
      RollbackResult.noPreviousVersion ∧
     (rollbackVersion emptyGuard c3NoPrev demoRollbackOracle).project = c3NoPrev) ∧
    ((rollbackVersion emptyGuard c3Project demoRollbackOracle).result =
      RollbackResult.malformedVersion ∧
     (rollbackVersion emptyGuard c3Project demoRollbackOracle).project.version = "1.0" ∧
     (rollbackVersion emptyGuard c3Project demoRollbackOracle).project.previousVersion =
      some c3Project.version) := by
  constructor
  · obtain ⟨h1, h2, _⟩ :=
      claim3_amended.1 emptyGuard c3NoPrev demoRollbackOracle rfl (by decide)
    exact ⟨h1, h2⟩
  · obtain ⟨h1, h2, h3, _⟩ :=
      claim3_amended.2 emptyGuard c3Project demoRollbackOracle "1.0" rfl rfl
        (by decide) (by decide)
    exact ⟨h1, h2, h3⟩

/-- C6 counterexample: `previousVersion = "01.0.0"` parses as three
integers, yet a successful rollback restores the re-rendered `"1.0.0"`,
not `"01.0.0"` — so the operation is not a swap, and after two successful
rollbacks the pair differs from the original (`previousVersion` ends as
`some "1.0.0"` instead of `some "01.0.0"`). -/
theorem claim6_counterexample :
    c6Project.previousVersion = some "01.0.0" ∧
    (rollbackVersion emptyGuard c6Project demoRollbackOracle).result =
      RollbackResult.success ∧
    (rollbackVersion emptyGuard c6Project demoRollbackOracle).project.version = "1.0.0" ∧
    (rollbackVersion emptyGuard c6Project demoRollbackOracle).project.version ≠
      "01.0.0" ∧
    (rollbackVersion (rollbackVersion emptyGuard c6Project demoRollbackOracle).guard
        (rollbackVersion emptyGuard c6Project demoRollbackOracle).project
        demoRollbackOracle).result = RollbackResult.success ∧
    (rollbackVersion (rollbackVersion emptyGuard c6Project demoRollbackOracle).guard
        (rollbackVersion emptyGuard c6Project demoRollbackOracle).project
        demoRollbackOracle).project.previousVersion ≠ c6Project.previousVersion := by
  decide

/-- C6 as amended: when `version` and `previousVersion` are both canonical
dotted triples (digits with no leading zeros, as every bump/rollback output
is), a successful rollback swaps the two fields exactly, and a second
successful rollback restores the original (version, previousVersion) pair
— the involution the claim states, restricted to canonical triples. -/
theorem claim6_amended (g : GuardState) (p : ProjectConfig) (o o' : RollbackOracle)
    (a b c d e f : Nat)
    (hv : p.version = natTriple a b c) (hp : p.previousVersion = some (natTriple d e f))
    (hc : o.confirmed = true) (hr : o.rollbackOk = true) (hs : o.persistOk = true)
    (hc' : o'.confirmed = true) (hr' : o'.rollbackOk = true) (hs' : o'.persistOk = true) :
    (rollbackVersion g p o).result = .success ∧
    (rollbackVersion g p o).project.version = natTriple d e f ∧
    (rollbackVersion g p o).project.previousVersion = some (natTriple a b c) ∧
    (rollbackVersion (rollbackVersion g p o).guard (rollbackVersion g p o).project
      o').result = .success ∧
    (rollbackVersion (rollbackVersion g p o).guard (rollbackVersion g p o).project
      o').project.version = natTriple a b c ∧
    (rollbackVersion (rollbackVersion g p o).guard (rollbackVersion g p o).project
      o').project.previousVersion = some (natTriple d e f) := by
  obtain ⟨h1res, h1proj⟩ := rollbackVersion_natTriple g p o d e f hc hr hs hp
  obtain ⟨h2res, h2proj⟩ := rollbackVersion_natTriple (rollbackVersion g p o).guard
    (rollbackVersion g p o).project o' a b c hc' hr' hs' (by rw [h1proj, hv])
  refine ⟨h1res, by rw [h1proj], by rw [h1proj, hv], h2res, by rw [h2proj], ?_⟩
  rw [h2proj, h1proj]

/-- Witness for C6 as amended at `1.0.1` / `1.0.0`. -/
theorem claim6_witness :
    (rollbackVersion emptyGuard demoRollCanonical demoRollbackOracle).result =
      RollbackResult.success ∧
    (rollbackVersion emptyGuard demoRollCanonical demoRollbackOracle).project.version =
      natTriple 1 0 0 ∧
    (rollbackVersion emptyGuard demoRollCanonical
        demoRollbackOracle).project.previousVersion = some (natTriple 1 0 1) ∧
    (rollbackVersion
      (rollbackVersion emptyGuard demoRollCanonical demoRollbackOracle).guard
      (rollbackVersion emptyGuard demoRollCanonical demoRollbackOracle).project
      demoRollbackOracle).project.version = natTriple 1 0 1 := by
  obtain ⟨h1, h2, h3, _, h5, _⟩ := claim6_amended emptyGuard demoRollCanonical
    demoRollbackOracle demoRollbackOracle 1 0 1 1 0 0 rfl rfl rfl rfl rfl rfl rfl rfl
  exact ⟨h1, h2, h3, h5⟩

/-- C7 counterexample: a deploy whose upload fails nonetheless updates
`lastDeployTime` (it is stamped before the invoke), and the project list
was already persisted before the transfer — contradicting the claim that
both happen exactly on upload success, after the transfer. -/
theorem claim7_counterexample :
    demoProject.lastDeployTime = none ∧
    (deployProject emptyGuard demoProject c7Oracle).result =
      DeployResult.uploadFailed ∧
    (deployProject emptyGuard demoProject c7Oracle).project.lastDeployTime =
      some c7Oracle.now ∧
    (deployProject emptyGuard demoProject c7Oracle).configPersisted = true := by
  decide

/-- C7 as amended: on every deploy that reaches the transfer step
(non-empty remote path, build skipped or successful), `lastDeployTime` is
set to the current time just before the upload invoke — hence also when
the upload fails — and the full project list is persisted before the
transfer, inside the same soft-failure block as the version manifest (so
it is skipped when the manifest write throws, and no further persist
happens after a successful upload); the status entry set on success is
deleted again by the guard clear at operation end. -/
theorem claim7_amended (g : GuardState) (p : ProjectConfig) (o : DeployOracle)
    (hrp : p.serverInfo.remotePath ≠ "")
    (hb : strTruthy p.buildCommand = true → o.buildExit = 0) :
    (deployProject g p o).project.lastDeployTime = some o.now ∧
    (deployProject g p o).uploadAttempted = true ∧
    (deployProject g p o).manifestWritten = o.versionJsonOk ∧
    (deployProject g p o).configPersisted = (o.versionJsonOk && o.configWriteOk) ∧
    (deployProject g p o).guard.deployStatusMap p.id = none := by
  have hbuild : ¬(strTruthy p.buildCommand = true ∧ o.buildExit ≠ 0) := by
    rintro ⟨h1, h2⟩; exact h2 (hb h1)
  by_cases hu : o.uploadOk = true <;>
    by_cases hpv : strTruthy (some p.version) = true <;>
      simp [deployProject, hrp, hbuild, hu, hpv, setProjectDeploying, setStatus]

/-- Witness for C7 as amended at the failing-upload oracle. -/
theorem claim7_witness :
    (deployProject emptyGuard demoProject c7Oracle).project.lastDeployTime =
      some c7Oracle.now ∧
    (deployProject emptyGuard demoProject c7Oracle).uploadAttempted = true ∧
    (deployProject emptyGuard demoProject c7Oracle).configPersisted =
      (c7Oracle.versionJsonOk && c7Oracle.configWriteOk) := by
  obtain ⟨h1, h2, _, h4, _⟩ :=
    claim7_amended emptyGuard demoProject c7Oracle (by decide) (fun _ => rfl)
  exact ⟨h1, h2, h4⟩

/-- C8 counterexample: the edit path performs no build-command validation:
saving an edited project whose command is `"rm -rf /"` (rejected by
`validateBuildCommand`) succeeds and mutates the stored list. -/
theorem claim8_counterexample :
    validateBuildCommand c8Bad.buildCommand = false ∧
    (saveEdit [demoProject] (some c8Bad) true).result = SaveResult.saved ∧
    (saveEdit [demoProject] (some c8Bad) true).fileWritten = true ∧
    (saveEdit [demoProject] (some c8Bad) true).projects = [c8Bad] ∧
    (saveEdit [demoProject] (some c8Bad) true).projects ≠ [demoProject] := by
  decide

/-- C8 as amended: `validateBuildCommand` accepts exactly the absent/empty
command and strings of the shape `npm run <identifier>` with the identifier
drawn from word characters, colons and hyphens (proved against a predicate
transcribed from the spec's words); a malformed command is rejected when
saving a *new* project, with the stored list untouched — but the edit path
(`saveEdit`) performs no such validation at all. -/
theorem claim8_amended :
    validateBuildCommand none = true ∧
    (∀ cmd, validateBuildCommand (some cmd) = true ↔ specBuildCommandOk cmd) ∧
    (∀ ps p nid w, p.name ≠ "" → p.path ≠ "" →
      strTruthy p.buildCommand = true → validateBuildCommand p.buildCommand = false →
      (saveProject ps p nid w).result = .invalidBuildCommand ∧
      (saveProject ps p nid w).projects = ps ∧
      (saveProject ps p nid w).fileWritten = false) := by
  refine ⟨rfl, ?_, ?_⟩
  · intro cmd
    constructor
    · intro h
      by_cases hc : cmd = ""
      · exact Or.inl hc
      · simp only [validateBuildCommand, if_neg hc] at h
        rcases hd : dropLead ("npm run ").data cmd.data with _ | rest
        · rw [hd] at h
          exact absurd h (by simp)
        · rw [hd] at h
          simp only [Bool.and_eq_true, Bool.not_eq_true', List.isEmpty_eq_false,
            List.all_eq_true] at h
          exact Or.inr ⟨rest, h.1, h.2, (dropLead_eq_some _ _ _).mp hd⟩
    · intro h
      rcases h with hc | ⟨ident, hne, hall, hdata⟩
      · simp [validateBuildCommand, hc]
      · have hcne : cmd ≠ "" := by
          intro h0
          rw [h0] at hdata
          exact absurd hdata.symm (by simp)
        simp only [validateBuildCommand, if_neg hcne,
          (dropLead_eq_some ("npm run ").data cmd.data ident).mpr hdata]
        simp only [List.isEmpty_eq_false, List.all_eq_true, Bool.not_eq_true',
          Bool.and_eq_true]
        exact ⟨by simp [hne], hall⟩
  · intro ps p nid w hname hpath htr hbad
    have hmf : ¬(p.name = "" ∨ p.path = "") := by
      rintro (h | h)
      · exact hname h
      · exact hpath h
    simp [saveProject, hmf, htr, hbad]

/-- Witness for C8 as amended: the characterization at a valid command and
the add-path rejection at the malformed fixture. -/
theorem claim8_witness :
    (validateBuildCommand (some "npm run build:prod") = true ↔
      specBuildCommandOk "npm run build:prod") ∧
    (saveProject [] c8Bad "1700000000001" true).result =
      SaveResult.invalidBuildCommand ∧
    (saveProject [] c8Bad "1700000000001" true).projects = [] ∧
    (saveProject [] c8Bad "1700000000001" true).fileWritten = false := by
  refine ⟨claim8_amended.2.1 "npm run build:prod", ?_⟩
  exact claim8_amended.2.2 [] c8Bad "1700000000001" true (by decide) (by decide)
    (by decide) (by decide)

/-- C10: the rollback well-formedness check uses `parseInt` per component,
so components with trailing junk (`"1x"`) or leading zeros (`"007"`) are
accepted as integers; whenever all three components of `previousVersion`
parse, the rollback succeeds and the restored `version` is the numeric
re-rendering `major.minor.patch` of the parsed components — which, as the
concrete `"1x.02.3" ↦ "1.2.3"` run shows, can differ from the stored
`previousVersion` string itself. -/
theorem claim10_parse_int_rerender :
    jsParseInt "1x" = some 1 ∧
    jsParseInt "007" = some 7 ∧
    (∀ g p o s x y z (a b c : Int),
      o.confirmed = true → o.rollbackOk = true → o.persistOk = true →
      p.previousVersion = some s → jsSplitDot s = [x, y, z] →
      jsParseInt x = some a → jsParseInt y = some b → jsParseInt z = some c →
      (rollbackVersion g p o).result = .success ∧
      (rollbackVersion g p o).project.version =
        jsRenderNum (some a) ++ "." ++ jsRenderNum (some b) ++ "."
          ++ jsRenderNum (some c) ∧
      (rollbackVersion g p o).project.previousVersion = some p.version) ∧
    (c10Project.previousVersion = some "1x.02.3" ∧
     (rollbackVersion emptyGuard c10Project demoRollbackOracle).result =
       RollbackResult.success ∧
     (rollbackVersion emptyGuard c10Project demoRollbackOracle).project.version =
       "1.2.3" ∧
     (rollbackVersion emptyGuard c10Project demoRollbackOracle).project.version ≠
       "1x.02.3") := by
  refine ⟨by decide, by decide, ?_, by decide⟩
  intro g p o s x y z a b c hc hr hs hp hsplit hx hy hz
  have hsne : s ≠ "" := by
    intro h0
    rw [h0] at hsplit
    simp [jsSplitDot, splitOnDot] at hsplit
  have hnone : jsParseInt "" = (none : Option Int) := by decide
  have hxe : x ≠ "" := by
    intro h0; rw [h0, hnone] at hx; exact Option.noConfusion hx
  have hye : y ≠ "" := by
    intro h0; rw [h0, hnone] at hy; exact Option.noConfusion hy
  have hze : z ≠ "" := by
    intro h0; rw [h0, hnone] at hz; exact Option.noConfusion hz
  obtain ⟨hp0, hp1, hp2⟩ := partOr_triple x y z hxe hye hze "1" "0" "0"
  have hmal : rollbackPrevMalformed s = false := by
    simp only [rollbackPrevMalformed, hsplit, hp0, hp1, hp2, hx, hy, hz]
    rfl
  have hrender : rollbackRender s =
      jsRenderNum (some a) ++ "." ++ jsRenderNum (some b) ++ "."
        ++ jsRenderNum (some c) := by
    simp only [rollbackRender, hsplit, hp0, hp1, hp2, hx, hy, hz]
  obtain ⟨h1, h2⟩ :=
    rollbackVersion_success_shape g p o s hc hr hs hp hsne hmal
  rw [hrender] at h2
  exact ⟨h1, by rw [h2], by rw [h2]⟩

/-- Witness for C10 at a symbolic-instance check: the universal part applied
to the concrete project whose `previousVersion` is `"1x.02.3"`. -/
theorem claim10_witness :
    (rollbackVersion emptyGuard c10Project demoRollbackOracle).result =
      RollbackResult.success ∧
    (rollbackVersion emptyGuard c10Project demoRollbackOracle).project.version =
      jsRenderNum (some 1) ++ "." ++ jsRenderNum (some 2) ++ "."
        ++ jsRenderNum (some 3) ∧
    (rollbackVersion emptyGuard c10Project demoRollbackOracle).project.previousVersion =
      some c10Project.version := by
  exact claim10_parse_int_rerender.2.2.1 emptyGuard c10Project demoRollbackOracle
    "1x.02.3" "1x" "02" "3" 1 2 3 rfl rfl rfl rfl (by decide) (by decide) (by decide)
    (by decide)
